import Mathlib

/-!
Verification development for the CHILD_SERVER file-sharing service.

The service stores uploaded files under short download codes.  The primary
backend (used by `main.py`) keeps raw bytes in MongoDB GridFS and a metadata
document per file in the `files` collection; a secondary backend
(`supabase_client.py`, driven by `routes/file_routes.py`) keeps bytes in
object storage and metadata in a relational `files` table.

This file is a shallow embedding of that code:

  * Python strings are `List Char`; `str.upper()` is `pyUpper`
    (character-wise `Char.toUpper`, exact for the ASCII strings involved).
  * Bytes are `List Nat`; timestamps are `Nat` (seconds); `timedelta(days=d)`
    is `d * day`.
  * MongoDB ObjectIds and GridFS ids are `Nat`, drawn from a counter.
  * The randomness of `uuid.uuid4()` is made explicit: a uuid is its list of
    32 hexadecimal digits (`List (Fin 16)`), passed in as a parameter.
  * `try/except` failure of an external call is made explicit as a `Bool`
    (or a failing-id set) parameter that says whether the call raises.
-/

/-- Python `str.upper()` on an ASCII string, applied character-wise. -/
def pyUpper (s : List Char) : List Char := s.map Char.toUpper

/-- One day in seconds; `timedelta(days=7)` becomes `7 * day`. -/
def day : Nat := 86400

/-- The lowercase hexadecimal digit characters of `str(uuid.uuid4())`. -/
def hexChar (d : Fin 16) : Char := ("0123456789abcdef".data).getD d.val ' '

/-- The function `generate_download_code` (identical in `mongodb_client.py`,
`mongodb_client_sync.py` and `supabase_client.py`):
`str(uuid.uuid4()).replace('-', '').upper()[:length]`.  The uuid's 32 hex
digits `u` are the explicit random input. -/
def generate_download_code (u : List (Fin 16)) (length : Nat) : List Char :=
  (pyUpper (u.map hexChar)).take length

/-- The check `validate_file_size` from the database clients: `file_size <= max_size`. -/
def validate_file_size (file_size : Nat) (max_size : Nat) : Bool :=
  file_size ≤ max_size

/-- The constant `MAX_FILE_SIZE` from `main.py`: 100 MiB. -/
def MAX_FILE_SIZE : Nat := 100 * 1024 * 1024

/-- A GridFS blob as written by `upload_file_to_mongodb`: the stream is
created with the original filename, the raw content, and the content type
kept in the stream metadata. -/
structure Blob where
  filename : List Char
  content : List Nat
  content_type : List Char
deriving DecidableEq, Repr

/-- A document of the MongoDB `files` collection, as built by
`create_file_record` in `mongodb_client.py`. -/
structure FileDoc where
  oid : Nat
  download_code : List Char
  original_filename : List Char
  file_size : Nat
  mime_type : List Char
  gridfs_id : Nat
  upload_date : Nat
  download_count : Nat
  expiry_date : Option Nat
  is_active : Bool
deriving DecidableEq, Repr

/-- The MongoDB backend state: the `files` collection (in insertion order),
the GridFS bucket (id-keyed blobs, in insertion order), and the counter
supplying fresh ObjectIds / GridFS ids. -/
structure MongoState where
  files : List FileDoc
  grid : List (Nat × Blob)
  next_id : Nat
deriving DecidableEq, Repr

/-- The function `create_file_record` from `mongodb_client.py`: the inserted document.
It uppercases the code, starts `download_count` at 0 and `is_active` at
true, and always sets `expiry_date = datetime.utcnow() + timedelta(days=7)`
(the function takes no ttl parameter). -/
def create_file_record (now : Nat) (download_code : List Char)
    (filename : List Char) (file_size : Nat) (mime_type : List Char)
    (gridfs_id : Nat) (oid : Nat) : FileDoc :=
  { oid := oid
    download_code := pyUpper download_code
    original_filename := filename
    file_size := file_size
    mime_type := mime_type
    gridfs_id := gridfs_id
    upload_date := now
    download_count := 0
    expiry_date := some (now + 7 * day)
    is_active := true }

/-- The query `files_collection.find_one` on code and `is_active`:
first document in insertion order matching the code with `is_active` true.
No expiry condition appears in the query. -/
def find_one_by_code (files : List FileDoc) (code : List Char) : Option FileDoc :=
  files.find? fun r => r.download_code == code && r.is_active

/-- The function `get_file_by_code` from `mongodb_client.py`: uppercases the code and
runs `find_one`; any exception from the query is swallowed and turned into
`None` (`query_raises` says whether the query raises). -/
def get_file_by_code (query_raises : Bool) (s : MongoState) (download_code : List Char) :
    Option FileDoc :=
  if query_raises then none
  else find_one_by_code s.files (pyUpper download_code)

/-- The update of `increment_download_count`: an `update_one` with an inc,
which increments the first document with the given id. -/
def update_one_inc_count (oid : Nat) : List FileDoc → List FileDoc
  | [] => []
  | r :: rs =>
    if r.oid == oid then { r with download_count := r.download_count + 1 } :: rs
    else r :: update_one_inc_count oid rs

/-- GridFS lookup by id (`open_download_stream`): first blob with the id. -/
def findBlob (grid : List (Nat × Blob)) (gridfs_id : Nat) : Option Blob :=
  (grid.find? fun p => p.1 == gridfs_id).map Prod.snd

/-- Whether the GridFS bucket holds a blob with the given id. -/
def gridHas (grid : List (Nat × Blob)) (gridfs_id : Nat) : Bool :=
  grid.any fun p => p.1 == gridfs_id

/-- Response of `POST /api/upload` (`upload_file` in `main.py`): success
carries the code, filename and size; failure carries status and detail. -/
inductive UploadResp
  | ok (download_code : List Char) (filename : List Char) (file_size : Nat)
  | err (status : Nat) (detail : List Char)
deriving DecidableEq, Repr

/-- The handler `upload_file` from `main.py`.  Validates the size, generates one code
(uuid digits `u`), writes the blob to GridFS, then inserts the metadata
record.  `insert_raises` says whether `insert_one` raises; in that case the
handler's `except` returns a 500 response and the already-written blob is
left in place (no cleanup appears in the code). -/
def upload_file (insert_raises : Bool) (s : MongoState) (now : Nat)
    (u : List (Fin 16)) (filename : List Char) (content : List Nat)
    (mime_type : List Char) : UploadResp × MongoState :=
  if !validate_file_size content.length MAX_FILE_SIZE then
    (UploadResp.err 413 ("File size exceeds 100MB limit".data), s)
  else
    let download_code := generate_download_code u 8
    let gridfs_id := s.next_id
    let s1 : MongoState :=
      { s with grid := s.grid ++ [(gridfs_id, ⟨filename, content, mime_type⟩)]
               next_id := s.next_id + 1 }
    if insert_raises then
      (UploadResp.err 500 ("Failed to create file record".data), s1)
    else
      let record := create_file_record now download_code filename content.length
        mime_type gridfs_id s1.next_id
      (UploadResp.ok download_code filename content.length,
       { s1 with files := s1.files ++ [record], next_id := s1.next_id + 1 })

/-- Response of `GET /api/download/{code}`: success carries the bytes, the
filename from the GridFS stream and the record's mime type. -/
inductive DownloadResp
  | ok (content : List Nat) (filename : List Char) (media_type : List Char)
  | err (status : Nat) (detail : List Char)
deriving DecidableEq, Repr

/-- The handler `download_file` from `main.py`: uppercases the code, looks the record
up via `get_file_by_code`, answers 404 "Invalid download code" when that
yields nothing, otherwise reads the blob (a GridFS miss surfaces as the
404 of `download_file_from_mongodb`), increments the download count and
returns the bytes. -/
def download_file (query_raises : Bool) (s : MongoState) (download_code : List Char) :
    DownloadResp × MongoState :=
  match get_file_by_code query_raises s (pyUpper download_code) with
  | none => (DownloadResp.err 404 ("Invalid download code".data), s)
  | some r =>
    match findBlob s.grid r.gridfs_id with
    | none => (DownloadResp.err 404 ("File download failed".data), s)
    | some b =>
      (DownloadResp.ok b.content b.filename r.mime_type,
       { s with files := update_one_inc_count r.oid s.files })

/-- Response of `GET /api/preview/{code}`: the metadata snapshot built by
`preview_file` in `main.py`. -/
inductive PreviewResp
  | ok (filename : List Char) (file_size : Nat) (mime_type : List Char)
      (upload_date : Nat) (download_count : Nat)
  | err (status : Nat) (detail : List Char)
deriving DecidableEq, Repr

/-- The handler `preview_file` from `main.py`: same lookup as download, no blob read,
no counter change. -/
def preview_file (query_raises : Bool) (s : MongoState) (download_code : List Char) :
    PreviewResp :=
  match get_file_by_code query_raises s (pyUpper download_code) with
  | none => PreviewResp.err 404 ("Invalid download code".data)
  | some r =>
    PreviewResp.ok r.original_filename r.file_size r.mime_type r.upload_date
      r.download_count

/-- The expiry-sweep query predicate of `cleanup_expired_files`:
`expiry_date <= now` and `is_active = true` (a missing expiry never
matches `$lte`). -/
def isExpiredActive (now : Nat) (r : FileDoc) : Bool :=
  (match r.expiry_date with
   | some e => decide (e ≤ now)
   | none => false) && r.is_active

/-- Whether `gridfs_bucket.delete(gridfs_id)` succeeds: the blob must exist
(deleting a missing id raises `NoFile`) and the id must not be in the set
`fail` of ids whose deletion raises (network or storage failure). -/
def gridfs_delete_ok (grid : List (Nat × Blob)) (fail : List Nat) (gridfs_id : Nat) : Bool :=
  gridHas grid gridfs_id && !(fail.contains gridfs_id)

/-- The loop body of `cleanup_expired_files` in `mongodb_client.py`, over
the cursor of matching documents: for each expired active record the blob
is deleted first and only then is the record marked inactive; when the
deletion raises, the `except` branch `continue`s, skipping the
deactivation of that record.  Returns (cleaned count, files, grid). -/
def cleanupGo (now : Nat) (fail : List Nat) :
    List FileDoc → List (Nat × Blob) → Nat × List FileDoc × List (Nat × Blob)
  | [], grid => (0, [], grid)
  | r :: rs, grid =>
    if isExpiredActive now r then
      if gridfs_delete_ok grid fail r.gridfs_id then
        let res := cleanupGo now fail rs (grid.filter fun p => !(p.1 == r.gridfs_id))
        (res.1 + 1, { r with is_active := false } :: res.2.1, res.2.2)
      else
        let res := cleanupGo now fail rs grid
        (res.1, r :: res.2.1, res.2.2)
    else
      let res := cleanupGo now fail rs grid
      (res.1, r :: res.2.1, res.2.2)

/-- The sweep `cleanup_expired_files` from `mongodb_client.py` on the whole state. -/
def cleanup_expired_files (now : Nat) (fail : List Nat) (s : MongoState) :
    Nat × MongoState :=
  let res := cleanupGo now fail s.files s.grid
  (res.1, { s with files := res.2.1, grid := res.2.2 })

/-- A row of the relational `files` table from `supabase_client.py`. -/
structure SupaRecord where
  id : Nat
  download_code : List Char
  original_filename : List Char
  file_size : Nat
  mime_type : List Char
  storage_path : List Char
  upload_date : Nat
  download_count : Nat
  expiry_date : Option Nat
  is_active : Bool
deriving DecidableEq, Repr

/-- The function `create_file_record` from `supabase_client.py`: the inserted row.  It
takes `expiry_days` (default 7 at the call site) and sets
`expiry_date = utcnow() + timedelta(days=expiry_days) if expiry_days > 0
else None`; the code is stored as passed (no uppercasing here). -/
def create_file_record_supabase (now : Nat) (id : Nat) (download_code : List Char)
    (filename : List Char) (file_size : Nat) (mime_type : List Char)
    (storage_path : List Char) (expiry_days : Nat) : SupaRecord :=
  { id := id
    download_code := download_code
    original_filename := filename
    file_size := file_size
    mime_type := mime_type
    storage_path := storage_path
    upload_date := now
    download_count := 0
    expiry_date := if expiry_days > 0 then some (now + expiry_days * day) else none
    is_active := true }

/-- The sweep predicate of `cleanup_expired_files` in `supabase_client.py`:
`expiry_date <= utcnow() AND is_active` (a SQL NULL expiry never matches). -/
def supaExpiredActive (now : Nat) (r : SupaRecord) : Bool :=
  (match r.expiry_date with
   | some e => decide (e ≤ now)
   | none => false) && r.is_active

/-- The sweep `cleanup_expired_files` from `supabase_client.py`: for every matching
row the storage deletion is fired as a detached task inside
`try/except: pass` (its outcome is never observed), and `is_active` is then
set false unconditionally.  Returns (cleaned count, rows). -/
def cleanup_expired_files_supabase (now : Nat) : List SupaRecord → Nat × List SupaRecord
  | [] => (0, [])
  | r :: rs =>
    let res := cleanup_expired_files_supabase now rs
    if supaExpiredActive now r then (res.1 + 1, { r with is_active := false } :: res.2)
    else (res.1, r :: res.2)

/-- The lookup of `download_file` (and `preview_file`) in
`routes/file_routes.py`: `db.query(FileRecord).filter(
FileRecord.download_code == download_code).first()` — the raw path
parameter is compared, with no uppercasing and no `is_active` filter. -/
def file_routes_lookup (files : List SupaRecord) (download_code : List Char) :
    Option SupaRecord :=
  files.find? fun r => r.download_code == download_code

/-- The uppercase hexadecimal digits. -/
def hexUpperChars : List Char := "0123456789ABCDEF".data

/-! ## Helper lemmas -/

theorem char_toNat_ofNat (n : Nat) (h : n.isValidChar) : (Char.ofNat n).toNat = n := by
  simp [Char.ofNat, h, Char.ofNatAux, Char.toNat, UInt32.toNat]

theorem char_toUpper_idem (c : Char) : c.toUpper.toUpper = c.toUpper := by
  unfold Char.toUpper
  by_cases h : c.toNat ≥ 97 ∧ c.toNat ≤ 122
  · rw [if_pos h, if_neg]
    intro hc
    have hv : Nat.isValidChar (c.toNat - 32) := Or.inl (by omega)
    rw [char_toNat_ofNat _ hv] at hc
    omega
  · rw [if_neg h, if_neg h]

theorem pyUpper_idem (s : List Char) : pyUpper (pyUpper s) = pyUpper s := by
  have h : Char.toUpper ∘ Char.toUpper = Char.toUpper := funext char_toUpper_idem
  simp [pyUpper, List.map_map, h]

/-! ## Claims -/

/-- C1: the spec demands that a lazily-expired record (past expiry, not yet
swept) be treated as not-found at fetch time.  The code does not do this:
`get_file_by_code` filters only on `is_active` and never compares
`expiry_date` with the clock, so at now = 100 a record with expiry 10 that
the sweep would deactivate is still served in full by `download_file`. -/
theorem fetch_serves_lazily_expired_record :
    isExpiredActive 100
      { oid := 1, download_code := "ABCD1234".data, original_filename := "f.txt".data,
        file_size := 2, mime_type := "text/plain".data, gridfs_id := 5, upload_date := 3,
        download_count := 0, expiry_date := some 10, is_active := true } = true ∧
    (download_file false
      { files := [{ oid := 1, download_code := "ABCD1234".data,
                    original_filename := "f.txt".data, file_size := 2,
                    mime_type := "text/plain".data, gridfs_id := 5, upload_date := 3,
                    download_count := 0, expiry_date := some 10, is_active := true }],
        grid := [(5, ⟨"f.txt".data, [9, 9], "text/plain".data⟩)], next_id := 6 }
      ("ABCD1234".data)).1 =
      DownloadResp.ok [9, 9] ("f.txt".data) ("text/plain".data) := by
  constructor <;> decide

/-- C9: `generate_download_code` returns, for any length up to 32, exactly
that many characters, all of them uppercase hexadecimal digits (the uuid4
hex alphabet), and caps the result at 32 characters for larger lengths. -/
theorem generate_download_code_hex (u : List (Fin 16)) (len : Nat)
    (hu : u.length = 32) :
    (len ≤ 32 → (generate_download_code u len).length = len) ∧
    (32 < len → (generate_download_code u len).length = 32) ∧
    ∀ c ∈ generate_download_code u len, c ∈ hexUpperChars := by
  have hlen : (pyUpper (u.map hexChar)).length = 32 := by
    simp [pyUpper, hu]
  refine ⟨?_, ?_, ?_⟩
  · intro h
    simp [generate_download_code, List.length_take, hlen]
    omega
  · intro h
    simp [generate_download_code, List.length_take, hlen]
    omega
  · intro c hc
    have hc' : c ∈ pyUpper (u.map hexChar) := List.mem_of_mem_take hc
    simp only [pyUpper, List.map_map, List.mem_map, Function.comp] at hc'
    obtain ⟨d, _, rfl⟩ := hc'
    exact (by decide : ∀ d : Fin 16, Char.toUpper (hexChar d) ∈ hexUpperChars) d

/-- Witness for C9 at a concrete uuid and the default length 8. -/
theorem generate_download_code_hex_witness :
    (List.replicate 32 (0 : Fin 16)).length = 32 ∧
    ((8 ≤ 32 → (generate_download_code (List.replicate 32 0) 8).length = 8) ∧
     (32 < 8 → (generate_download_code (List.replicate 32 0) 8).length = 32) ∧
     ∀ c ∈ generate_download_code (List.replicate 32 0) 8, c ∈ hexUpperChars) :=
  ⟨by decide, generate_download_code_hex (List.replicate 32 0) 8 (by decide)⟩

/-- C4 counterexample: on the MongoDB backend actually used by `main.py`,
a store never yields a record without expiry — `create_file_record` takes
no ttl and unconditionally sets `expiry_date = now + 7 days`, so the
claimed "ttl = 0 gives expiry_timestamp = null" upload cannot occur: the
single record created by this concrete upload carries `some (7 * day)`. -/
theorem mongo_upload_expiry_never_null :
    ((upload_file false ⟨[], [], 0⟩ 0 (List.replicate 32 0) ("a.txt".data) [72]
        ("text/plain".data)).2.files.map FileDoc.expiry_date) = [some (7 * day)] ∧
    ((upload_file false ⟨[], [], 0⟩ 0 (List.replicate 32 0) ("a.txt".data) [72]
        ("text/plain".data)).2.files.map FileDoc.expiry_date) ≠ [none] := by
  constructor <;> decide

/-- C4 amended: only the Supabase backend implements the claimed rule —
its `create_file_record` sets `expiry_date = now + expiry_days * day` when
`expiry_days > 0` and null when it is 0; the MongoDB `create_file_record`
takes no ttl parameter and always sets `expiry_date = now + 7 * day`. -/
theorem create_record_expiry_policy (now id2 : Nat) (code filename mime_type path : List Char)
    (file_size : Nat) (expiry_days : Nat) (gridfs_id oid2 : Nat) :
    (create_file_record_supabase now id2 code filename file_size mime_type path
        expiry_days).expiry_date =
      (if expiry_days > 0 then some (now + expiry_days * day) else none) ∧
    (create_file_record now code filename file_size mime_type gridfs_id
        oid2).expiry_date = some (now + 7 * day) :=
  ⟨rfl, rfl⟩

/-- C8 counterexample: the `routes/file_routes.py` lookup compares the raw
path parameter against the stored code, with no uppercasing — the same
stored record is found under its uppercase code but not under the
lowercase form, so Fetch does not return the same result on a code and on
its uppercase form there. -/
theorem file_routes_lookup_case_sensitive :
    file_routes_lookup
      [{ id := 1, download_code := "ABCD1234".data, original_filename := "f".data,
         file_size := 1, mime_type := "t".data, storage_path := "p".data,
         upload_date := 0, download_count := 0, expiry_date := none,
         is_active := true }] ("abcd1234".data) = none ∧
    file_routes_lookup
      [{ id := 1, download_code := "ABCD1234".data, original_filename := "f".data,
         file_size := 1, mime_type := "t".data, storage_path := "p".data,
         upload_date := 0, download_count := 0, expiry_date := none,
         is_active := true }] (pyUpper ("abcd1234".data)) =
      some { id := 1, download_code := "ABCD1234".data, original_filename := "f".data,
             file_size := 1, mime_type := "t".data, storage_path := "p".data,
             upload_date := 0, download_count := 0, expiry_date := none,
             is_active := true } := by
  constructor <;> decide

/-- C8 amended: on the MongoDB path (`main.py` plus `mongodb_client.py`)
codes are normalized to uppercase before storage and comparison, so
lookup, Fetch and Inspect give the same result on a code and on its
uppercase form; the `routes/file_routes.py` handlers, by contrast, compare
the raw code (see the counterexample). -/
theorem mongo_code_case_insensitive (query_raises : Bool) (s : MongoState)
    (download_code : List Char) :
    get_file_by_code query_raises s download_code =
      get_file_by_code query_raises s (pyUpper download_code) ∧
    download_file query_raises s download_code =
      download_file query_raises s (pyUpper download_code) ∧
    preview_file query_raises s download_code =
      preview_file query_raises s (pyUpper download_code) := by
  refine ⟨?_, ?_, ?_⟩ <;>
    simp [get_file_by_code, download_file, preview_file, pyUpper_idem]

/-- C10: a raising metadata query is swallowed into `None` by
`get_file_by_code`, and both the download and the preview handlers answer
exactly the 404 "Invalid download code" that a genuinely absent code
gets — the outage is indistinguishable from a missing code. -/
theorem metadata_outage_reported_as_not_found (s : MongoState) (code : List Char)
    (s2 : MongoState) (code2 : List Char)
    (habs : get_file_by_code false s2 (pyUpper code2) = none) :
    get_file_by_code true s code = none ∧
    (download_file true s code).1 = DownloadResp.err 404 ("Invalid download code".data) ∧
    preview_file true s code = PreviewResp.err 404 ("Invalid download code".data) ∧
    (download_file false s2 code2).1 = DownloadResp.err 404 ("Invalid download code".data) := by
  refine ⟨rfl, ?_, ?_, ?_⟩
  · simp [download_file, get_file_by_code]
  · simp [preview_file, get_file_by_code]
  · simp [download_file, habs]

/-- Witness for C10 on the empty store. -/
theorem metadata_outage_reported_as_not_found_witness :
    get_file_by_code false ⟨[], [], 0⟩ (pyUpper ("AB".data)) = none ∧
    (get_file_by_code true ⟨[], [], 0⟩ ("AB".data) = none ∧
     (download_file true ⟨[], [], 0⟩ ("AB".data)).1 =
       DownloadResp.err 404 ("Invalid download code".data) ∧
     preview_file true ⟨[], [], 0⟩ ("AB".data) =
       PreviewResp.err 404 ("Invalid download code".data) ∧
     (download_file false ⟨[], [], 0⟩ ("AB".data)).1 =
       DownloadResp.err 404 ("Invalid download code".data)) :=
  ⟨by decide,
   metadata_outage_reported_as_not_found ⟨[], [], 0⟩ ("AB".data) ⟨[], [], 0⟩ ("AB".data)
     (by decide)⟩

/-- Normal form of a successful `upload_file`: one code generation, blob
write, record insert, with the counter advanced twice. -/
theorem upload_file_ok (s : MongoState) (now : Nat) (u : List (Fin 16))
    (filename : List Char) (content : List Nat) (mime_type : List Char)
    (hsize : content.length ≤ MAX_FILE_SIZE) :
    upload_file false s now u filename content mime_type =
      (UploadResp.ok (generate_download_code u 8) filename content.length,
       { files := s.files ++ [create_file_record now (generate_download_code u 8)
           filename content.length mime_type s.next_id (s.next_id + 1)],
         grid := s.grid ++ [(s.next_id, ⟨filename, content, mime_type⟩)],
         next_id := s.next_id + 2 }) := by
  have hv : validate_file_size content.length MAX_FILE_SIZE = true := by
    simp [validate_file_size, hsize]
  simp [upload_file, hv]

/-- A GridFS id absent from the bucket is not found. -/
theorem find?_none_of_gridHas_false (grid : List (Nat × Blob)) (gid : Nat)
    (h : gridHas grid gid = false) : (grid.find? fun p => p.1 == gid) = none := by
  rw [List.find?_eq_none]
  intro x hx
  simp [gridHas, List.any_eq_false] at h
  obtain ⟨a, b⟩ := x
  simp [h a b hx]

/-- Splitting a `find_one` over a collection in two parts. -/
theorem find_one_by_code_append (l1 l2 : List FileDoc) (code : List Char) :
    find_one_by_code (l1 ++ l2) code =
      (find_one_by_code l1 code).or (find_one_by_code l2 code) := by
  simp [find_one_by_code, List.find?_append]

/-- C2 counterexample: two sequential Store calls whose `uuid4` draws
coincide produce the same active `download_code` twice — `upload_file`
never reserves the generated code nor checks for a conflicting active
record, so after the two uploads the collection holds two active records
both coded "00000000"; no retry or `CodeSpaceExhausted` path exists. -/
theorem duplicate_active_codes :
    ((upload_file false
        (upload_file false ⟨[], [], 0⟩ 0 (List.replicate 32 0) ("a.txt".data) [1, 2]
          ("text/plain".data)).2
        0 (List.replicate 32 0) ("b.txt".data) [3] ("text/plain".data)).2.files.map
      fun r => (r.download_code, r.is_active)) =
      [("00000000".data, true), ("00000000".data, true)] := by decide

/-- C2 amended: `upload_file` derives its code from the single `uuid4`
draw alone and inserts the record unconditionally — no reservation, no
conflict check, no bounded retry, no `CodeSpaceExhausted` error — so
active-code uniqueness holds only as long as the generator never repeats
(see the counterexample for a repeat). -/
theorem store_code_not_reserved (s : MongoState) (now : Nat) (u : List (Fin 16))
    (filename : List Char) (content : List Nat) (mime_type : List Char)
    (hsize : content.length ≤ MAX_FILE_SIZE) :
    (upload_file false s now u filename content mime_type).1 =
      UploadResp.ok (generate_download_code u 8) filename content.length ∧
    (upload_file false s now u filename content mime_type).2.files =
      s.files ++ [create_file_record now (generate_download_code u 8) filename
        content.length mime_type s.next_id (s.next_id + 1)] := by
  rw [upload_file_ok s now u filename content mime_type hsize]
  exact ⟨rfl, rfl⟩

/-- Witness for the amended C2 on the empty store. -/
theorem store_code_not_reserved_witness :
    ([4, 5] : List Nat).length ≤ MAX_FILE_SIZE ∧
    ((upload_file false ⟨[], [], 0⟩ 0 (List.replicate 32 0) ("a.txt".data) [4, 5]
        ("text/plain".data)).1 =
      UploadResp.ok (generate_download_code (List.replicate 32 0) 8) ("a.txt".data) 2 ∧
     (upload_file false ⟨[], [], 0⟩ 0 (List.replicate 32 0) ("a.txt".data) [4, 5]
        ("text/plain".data)).2.files =
      [] ++ [create_file_record 0 (generate_download_code (List.replicate 32 0) 8)
        ("a.txt".data) 2 ("text/plain".data) 0 1]) :=
  ⟨by decide,
   store_code_not_reserved ⟨[], [], 0⟩ 0 (List.replicate 32 0) ("a.txt".data) [4, 5]
     ("text/plain".data) (by decide)⟩

/-- C3: Store immediately followed by Fetch on the returned code gives
back byte-identical content with the original filename and mime type,
provided the payload is within the cap, the generated code does not
collide with an already-active record, and the fresh GridFS id is unused
(both hold on any state reachable by this code from an empty store). -/
theorem store_fetch_roundtrip (s : MongoState) (now : Nat) (u : List (Fin 16))
    (filename : List Char) (content : List Nat) (mime_type : List Char)
    (hsize : content.length ≤ MAX_FILE_SIZE)
    (hcode : find_one_by_code s.files (pyUpper (generate_download_code u 8)) = none)
    (hgrid : gridHas s.grid s.next_id = false) :
    (upload_file false s now u filename content mime_type).1 =
      UploadResp.ok (generate_download_code u 8) filename content.length ∧
    (download_file false (upload_file false s now u filename content mime_type).2
        (generate_download_code u 8)).1 =
      DownloadResp.ok content filename mime_type := by
  rw [upload_file_ok s now u filename content mime_type hsize]
  refine ⟨rfl, ?_⟩
  have hget : get_file_by_code false
      { files := s.files ++ [create_file_record now (generate_download_code u 8)
          filename content.length mime_type s.next_id (s.next_id + 1)],
        grid := s.grid ++ [(s.next_id, ⟨filename, content, mime_type⟩)],
        next_id := s.next_id + 2 } (pyUpper (generate_download_code u 8)) =
      some (create_file_record now (generate_download_code u 8) filename
        content.length mime_type s.next_id (s.next_id + 1)) := by
    simp only [get_file_by_code, if_neg (by simp : ¬(false = true)), pyUpper_idem]
    rw [find_one_by_code_append, hcode]
    simp [find_one_by_code, create_file_record]
  have hblob : findBlob (s.grid ++ [(s.next_id, ⟨filename, content, mime_type⟩)])
      s.next_id = some ⟨filename, content, mime_type⟩ := by
    unfold findBlob
    rw [List.find?_append, find?_none_of_gridHas_false s.grid s.next_id hgrid]
    simp
  simp only [download_file, hget]
  simp [create_file_record, hblob]

/-- Witness for C3 on the empty store. -/
theorem store_fetch_roundtrip_witness :
    ([72, 73] : List Nat).length ≤ MAX_FILE_SIZE ∧
    find_one_by_code (MongoState.files ⟨[], [], 0⟩)
      (pyUpper (generate_download_code (List.replicate 32 0) 8)) = none ∧
    gridHas (MongoState.grid ⟨[], [], 0⟩) 0 = false ∧
    ((upload_file false ⟨[], [], 0⟩ 0 (List.replicate 32 0) ("a.txt".data) [72, 73]
        ("text/plain".data)).1 =
      UploadResp.ok (generate_download_code (List.replicate 32 0) 8) ("a.txt".data) 2 ∧
     (download_file false
        (upload_file false ⟨[], [], 0⟩ 0 (List.replicate 32 0) ("a.txt".data) [72, 73]
          ("text/plain".data)).2
        (generate_download_code (List.replicate 32 0) 8)).1 =
      DownloadResp.ok [72, 73] ("a.txt".data) ("text/plain".data)) :=
  ⟨by decide, by decide, by decide,
   store_fetch_roundtrip ⟨[], [], 0⟩ 0 (List.replicate 32 0) ("a.txt".data) [72, 73]
     ("text/plain".data) (by decide) (by decide) (by decide)⟩

/-- C5 counterexample: when the metadata insert raises after the blob
write, the handler's `except` returns a generic 500 and the orphaned blob
is still in GridFS afterwards — no best-effort delete of the blob is
attempted anywhere in `upload_file`, contrary to the claim. -/
theorem orphaned_blob_left_behind :
    (upload_file true ⟨[], [], 0⟩ 0 (List.replicate 32 0) ("a.txt".data) [7]
        ("text/plain".data)).1 =
      UploadResp.err 500 ("Failed to create file record".data) ∧
    (upload_file true ⟨[], [], 0⟩ 0 (List.replicate 32 0) ("a.txt".data) [7]
        ("text/plain".data)).2.grid =
      [(0, ⟨"a.txt".data, [7], "text/plain".data⟩)] ∧
    (upload_file true ⟨[], [], 0⟩ 0 (List.replicate 32 0) ("a.txt".data) [7]
        ("text/plain".data)).2.files = [] := by
  refine ⟨by decide, by decide, by decide⟩

/-- C5 amended: a metadata-insert failure after the blob write surfaces as
a 500 "Failed to create file record" response and leaves the freshly
written blob in GridFS untouched; no compensating deletion is attempted
and no record is inserted. -/
theorem metadata_failure_keeps_orphan_blob (s : MongoState) (now : Nat)
    (u : List (Fin 16)) (filename : List Char) (content : List Nat)
    (mime_type : List Char) (hsize : content.length ≤ MAX_FILE_SIZE) :
    upload_file true s now u filename content mime_type =
      (UploadResp.err 500 ("Failed to create file record".data),
       { files := s.files,
         grid := s.grid ++ [(s.next_id, ⟨filename, content, mime_type⟩)],
         next_id := s.next_id + 1 }) := by
  have hv : validate_file_size content.length MAX_FILE_SIZE = true := by
    simp [validate_file_size, hsize]
  simp [upload_file, hv]

/-- Witness for the amended C5 on the empty store. -/
theorem metadata_failure_keeps_orphan_blob_witness :
    ([7] : List Nat).length ≤ MAX_FILE_SIZE ∧
    upload_file true ⟨[], [], 0⟩ 0 (List.replicate 32 0) ("a.txt".data) [7]
        ("text/plain".data) =
      (UploadResp.err 500 ("Failed to create file record".data),
       { files := ([] : List FileDoc),
         grid := [] ++ [(0, ⟨"a.txt".data, [7], "text/plain".data⟩)],
         next_id := 0 + 1 }) :=
  ⟨by decide,
   metadata_failure_keeps_orphan_blob ⟨[], [], 0⟩ 0 (List.replicate 32 0) ("a.txt".data)
     [7] ("text/plain".data) (by decide)⟩

/-- Removing entries from the bucket never makes a missing id present. -/
theorem gridHas_filter_false (grid : List (Nat × Blob)) (q : Nat × Blob → Bool) (gid : Nat)
    (h : gridHas grid gid = false) : gridHas (grid.filter q) gid = false := by
  cases htrue : gridHas (grid.filter q) gid with
  | false => rfl
  | true =>
    exfalso
    simp only [gridHas, List.any_eq_true] at htrue
    obtain ⟨x, hx, heq⟩ := htrue
    simp only [gridHas, List.any_eq_false] at h
    exact absurd heq (h x (List.mem_of_mem_filter hx))

/-- Supabase sweep: every expired active row is deactivated, with no
condition on the storage deletion (whose outcome the code never reads). -/
theorem cleanup_supabase_deactivates (now : Nat) (r : SupaRecord) :
    ∀ l : List SupaRecord, r ∈ l → supaExpiredActive now r = true →
      { r with is_active := false } ∈ (cleanup_expired_files_supabase now l).2 := by
  intro l
  induction l with
  | nil => intro h _; cases h
  | cons a rs ih =>
    intro hmem hexp
    rcases List.mem_cons.mp hmem with rfl | hmem'
    · simp only [cleanup_expired_files_supabase, hexp, if_pos]
      exact List.mem_cons_self _ _
    · by_cases h1 : supaExpiredActive now a = true
      · simp only [cleanup_expired_files_supabase, h1, if_pos]
        exact List.mem_cons_of_mem _ (ih hmem' hexp)
      · simp only [cleanup_expired_files_supabase, if_neg h1]
        exact List.mem_cons_of_mem _ (ih hmem' hexp)

/-- MongoDB sweep: an expired active record whose blob deletion raises
(id in the failing set, or blob already gone) is skipped by the `except:
continue` branch and survives the sweep unchanged — still active. -/
theorem cleanupGo_skips_failed_delete (now : Nat) (fail : List Nat) (r : FileDoc) :
    ∀ (l : List FileDoc) (grid : List (Nat × Blob)),
      r ∈ l → isExpiredActive now r = true →
      (fail.contains r.gridfs_id = true ∨ gridHas grid r.gridfs_id = false) →
      r ∈ (cleanupGo now fail l grid).2.1 := by
  intro l
  induction l with
  | nil => intro grid h _ _; cases h
  | cons a rs ih =>
    intro grid hmem hexp hdel
    rcases List.mem_cons.mp hmem with rfl | hmem'
    · have hdok : ¬(gridfs_delete_ok grid fail r.gridfs_id = true) := by
        rcases hdel with h1 | h2
        · simp only [gridfs_delete_ok, h1, Bool.not_true, Bool.and_false]
          exact Bool.false_ne_true
        · simp only [gridfs_delete_ok, h2, Bool.false_and]
          exact Bool.false_ne_true
      simp only [cleanupGo, if_pos hexp, if_neg hdok]
      exact List.mem_cons_self _ _
    · by_cases h1 : isExpiredActive now a = true
      · by_cases h2 : gridfs_delete_ok grid fail a.gridfs_id = true
        · simp only [cleanupGo, if_pos h1, if_pos h2]
          refine List.mem_cons_of_mem _ (ih _ hmem' hexp ?_)
          rcases hdel with hd1 | hd2
          · exact Or.inl hd1
          · exact Or.inr (gridHas_filter_false _ _ _ hd2)
        · simp only [cleanupGo, if_pos h1, if_neg h2]
          exact List.mem_cons_of_mem _ (ih _ hmem' hexp hdel)
      · simp only [cleanupGo, if_neg h1]
        exact List.mem_cons_of_mem _ (ih _ hmem' hexp hdel)

/-- The sweep only ever removes blobs: an id missing from the bucket
before the sweep is still missing after it. -/
theorem cleanupGo_gridHas_mono (now : Nat) (fail : List Nat) :
    ∀ (l : List FileDoc) (grid : List (Nat × Blob)) (gid : Nat),
      gridHas grid gid = false → gridHas (cleanupGo now fail l grid).2.2 gid = false := by
  intro l
  induction l with
  | nil => intro grid gid h; exact h
  | cons a rs ih =>
    intro grid gid h
    by_cases h1 : isExpiredActive now a = true
    · by_cases h2 : gridfs_delete_ok grid fail a.gridfs_id = true
      · simp only [cleanupGo, if_pos h1, if_pos h2]
        exact ih _ gid (gridHas_filter_false _ _ _ h)
      · simp only [cleanupGo, if_pos h1, if_neg h2]
        exact ih _ gid h
    · simp only [cleanupGo, if_neg h1]
      exact ih _ gid h

/-- Running the MongoDB sweep body on its own output changes nothing. -/
theorem cleanupGo_fixpoint (now : Nat) (fail : List Nat) :
    ∀ (l : List FileDoc) (grid : List (Nat × Blob)),
      cleanupGo now fail (cleanupGo now fail l grid).2.1 (cleanupGo now fail l grid).2.2 =
        (0, (cleanupGo now fail l grid).2.1, (cleanupGo now fail l grid).2.2) := by
  intro l
  induction l with
  | nil => intro grid; rfl
  | cons a rs ih =>
    intro grid
    by_cases h1 : isExpiredActive now a = true
    · by_cases h2 : gridfs_delete_ok grid fail a.gridfs_id = true
      · have ha : ¬(isExpiredActive now { a with is_active := false } = true) := by
          simp [isExpiredActive]
        simp only [cleanupGo, if_pos h1, if_pos h2, if_neg ha, ih]
      · have h2' : gridfs_delete_ok (cleanupGo now fail rs grid).2.2 fail a.gridfs_id = false := by
          rcases hg : gridHas grid a.gridfs_id with _ | _
          · have hm := cleanupGo_gridHas_mono now fail rs grid a.gridfs_id hg
            simp [gridfs_delete_ok, hm]
          · have hc : fail.contains a.gridfs_id = true := by
              by_contra hcn
              apply h2
              simp only [Bool.not_eq_true] at hcn
              simp only [gridfs_delete_ok, hg, hcn, Bool.not_false, Bool.and_self]
            simp only [gridfs_delete_ok, hc, Bool.not_true, Bool.and_false]
        have h2n : ¬(gridfs_delete_ok (cleanupGo now fail rs grid).2.2 fail a.gridfs_id = true) := by
          simp [h2']
        simp only [cleanupGo, if_pos h1, if_neg h2, if_neg h2n, ih]
    · simp only [cleanupGo, if_neg h1, ih]

/-- Running the Supabase sweep on its own output changes nothing. -/
theorem cleanup_supabase_fixpoint (now : Nat) :
    ∀ l : List SupaRecord,
      cleanup_expired_files_supabase now (cleanup_expired_files_supabase now l).2 =
        (0, (cleanup_expired_files_supabase now l).2) := by
  intro l
  induction l with
  | nil => rfl
  | cons a rs ih =>
    by_cases h1 : supaExpiredActive now a = true
    · have ha : ¬(supaExpiredActive now { a with is_active := false } = true) := by
        simp [supaExpiredActive]
      simp only [cleanup_expired_files_supabase, if_pos h1, if_neg ha, ih]
    · simp only [cleanup_expired_files_supabase, if_neg h1, ih]

/-- C6 counterexample: in the MongoDB sweep a failed blob deletion does
block deactivation — the expired active record whose GridFS delete raises
(id 5 is in the failing set) is skipped by `except: continue`, so after
the sweep it is still active and the sweep reports 0 cleaned. -/
theorem mongo_sweep_delete_failure_blocks_deactivation :
    isExpiredActive 100
      { oid := 1, download_code := "AAAA0000".data, original_filename := "f".data,
        file_size := 1, mime_type := "t".data, gridfs_id := 5, upload_date := 0,
        download_count := 0, expiry_date := some 10, is_active := true } = true ∧
    gridfs_delete_ok [(5, ⟨"f".data, [9], "t".data⟩)] [5] 5 = false ∧
    ((cleanup_expired_files 100 [5]
        { files := [{ oid := 1, download_code := "AAAA0000".data,
                      original_filename := "f".data, file_size := 1,
                      mime_type := "t".data, gridfs_id := 5, upload_date := 0,
                      download_count := 0, expiry_date := some 10, is_active := true }],
          grid := [(5, ⟨"f".data, [9], "t".data⟩)],
          next_id := 6 }).2.files.map FileDoc.is_active) = [true] ∧
    (cleanup_expired_files 100 [5]
        { files := [{ oid := 1, download_code := "AAAA0000".data,
                      original_filename := "f".data, file_size := 1,
                      mime_type := "t".data, gridfs_id := 5, upload_date := 0,
                      download_count := 0, expiry_date := some 10, is_active := true }],
          grid := [(5, ⟨"f".data, [9], "t".data⟩)],
          next_id := 6 }).1 = 0 := by
  refine ⟨by decide, by decide, by decide, by decide⟩

/-- C6 amended: the two backends diverge.  The Supabase sweep deactivates
every expired active row regardless of the storage deletion (fire-and-
forget inside `try/except: pass`); the MongoDB sweep, whose `except`
branch `continue`s past the `is_active` update, leaves a record whose
blob deletion fails entirely unchanged — still active — though the sweep
itself still completes without escalating the failure. -/
theorem sweep_blob_delete_failure_behavior (now : Nat)
    (rows : List SupaRecord) (r2 : SupaRecord) (fail : List Nat) (s : MongoState)
    (r : FileDoc)
    (h2mem : r2 ∈ rows) (h2exp : supaExpiredActive now r2 = true)
    (hmem : r ∈ s.files) (hexp : isExpiredActive now r = true)
    (hdel : gridfs_delete_ok s.grid fail r.gridfs_id = false) :
    { r2 with is_active := false } ∈ (cleanup_expired_files_supabase now rows).2 ∧
    r ∈ (cleanup_expired_files now fail s).2.files := by
  refine ⟨cleanup_supabase_deactivates now r2 rows h2mem h2exp, ?_⟩
  have hd : fail.contains r.gridfs_id = true ∨ gridHas s.grid r.gridfs_id = false := by
    rcases hg : gridHas s.grid r.gridfs_id with _ | _
    · exact Or.inr rfl
    · left
      by_contra hcn
      simp only [Bool.not_eq_true] at hcn
      simp only [gridfs_delete_ok, hg, hcn, Bool.not_false, Bool.and_self] at hdel
      exact absurd hdel (by simp)
  exact cleanupGo_skips_failed_delete now fail r s.files s.grid hmem hexp hd

/-- Witness for the amended C6 at concrete one-record stores. -/
theorem sweep_blob_delete_failure_behavior_witness :
    ({ id := 2, download_code := "X".data, original_filename := "g".data,
       file_size := 1, mime_type := "t".data, storage_path := "p".data,
       upload_date := 0, download_count := 0, expiry_date := some 10,
       is_active := true } : SupaRecord) ∈
      [({ id := 2, download_code := "X".data, original_filename := "g".data,
          file_size := 1, mime_type := "t".data, storage_path := "p".data,
          upload_date := 0, download_count := 0, expiry_date := some 10,
          is_active := true } : SupaRecord)] ∧
    supaExpiredActive 100
      { id := 2, download_code := "X".data, original_filename := "g".data,
        file_size := 1, mime_type := "t".data, storage_path := "p".data,
        upload_date := 0, download_count := 0, expiry_date := some 10,
        is_active := true } = true ∧
    ({ oid := 1, download_code := "A".data, original_filename := "f".data,
       file_size := 1, mime_type := "t".data, gridfs_id := 5, upload_date := 0,
       download_count := 0, expiry_date := some 10, is_active := true } : FileDoc) ∈
      (MongoState.files
        { files := [{ oid := 1, download_code := "A".data, original_filename := "f".data,
                      file_size := 1, mime_type := "t".data, gridfs_id := 5,
                      upload_date := 0, download_count := 0, expiry_date := some 10,
                      is_active := true }],
          grid := [(5, ⟨"f".data, [9], "t".data⟩)], next_id := 6 }) ∧
    isExpiredActive 100
      { oid := 1, download_code := "A".data, original_filename := "f".data,
        file_size := 1, mime_type := "t".data, gridfs_id := 5, upload_date := 0,
        download_count := 0, expiry_date := some 10, is_active := true } = true ∧
    gridfs_delete_ok [(5, ⟨"f".data, [9], "t".data⟩)] [5] 5 = false ∧
    (({ id := 2, download_code := "X".data, original_filename := "g".data,
        file_size := 1, mime_type := "t".data, storage_path := "p".data,
        upload_date := 0, download_count := 0, expiry_date := some 10,
        is_active := false } : SupaRecord) ∈
      (cleanup_expired_files_supabase 100
        [{ id := 2, download_code := "X".data, original_filename := "g".data,
           file_size := 1, mime_type := "t".data, storage_path := "p".data,
           upload_date := 0, download_count := 0, expiry_date := some 10,
           is_active := true }]).2 ∧
     ({ oid := 1, download_code := "A".data, original_filename := "f".data,
        file_size := 1, mime_type := "t".data, gridfs_id := 5, upload_date := 0,
        download_count := 0, expiry_date := some 10, is_active := true } : FileDoc) ∈
      (cleanup_expired_files 100 [5]
        { files := [{ oid := 1, download_code := "A".data, original_filename := "f".data,
                      file_size := 1, mime_type := "t".data, gridfs_id := 5,
                      upload_date := 0, download_count := 0, expiry_date := some 10,
                      is_active := true }],
          grid := [(5, ⟨"f".data, [9], "t".data⟩)], next_id := 6 }).2.files) :=
  ⟨by decide, by decide, by decide, by decide, by decide,
   sweep_blob_delete_failure_behavior 100
     [{ id := 2, download_code := "X".data, original_filename := "g".data,
        file_size := 1, mime_type := "t".data, storage_path := "p".data,
        upload_date := 0, download_count := 0, expiry_date := some 10,
        is_active := true }]
     { id := 2, download_code := "X".data, original_filename := "g".data,
       file_size := 1, mime_type := "t".data, storage_path := "p".data,
       upload_date := 0, download_count := 0, expiry_date := some 10,
       is_active := true }
     [5]
     { files := [{ oid := 1, download_code := "A".data, original_filename := "f".data,
                   file_size := 1, mime_type := "t".data, gridfs_id := 5,
                   upload_date := 0, download_count := 0, expiry_date := some 10,
                   is_active := true }],
       grid := [(5, ⟨"f".data, [9], "t".data⟩)], next_id := 6 }
     { oid := 1, download_code := "A".data, original_filename := "f".data,
       file_size := 1, mime_type := "t".data, gridfs_id := 5, upload_date := 0,
       download_count := 0, expiry_date := some 10, is_active := true }
     (by decide) (by decide) (by decide) (by decide) (by decide)⟩

/-- C7: the expiry sweep is idempotent on both backends — running it a
second time at the same instant on the state a first run produced
deactivates zero records and leaves the state unchanged (this holds for
every outcome pattern `fail` of the best-effort blob deletions, provided
it is the same for both passes). -/
theorem expire_sweep_idempotent (now : Nat) (fail : List Nat) (s : MongoState)
    (rows : List SupaRecord) :
    (cleanup_expired_files now fail (cleanup_expired_files now fail s).2).1 = 0 ∧
    (cleanup_expired_files now fail (cleanup_expired_files now fail s).2).2 =
      (cleanup_expired_files now fail s).2 ∧
    (cleanup_expired_files_supabase now (cleanup_expired_files_supabase now rows).2).1 = 0 ∧
    (cleanup_expired_files_supabase now (cleanup_expired_files_supabase now rows).2).2 =
      (cleanup_expired_files_supabase now rows).2 := by
  have hm := cleanupGo_fixpoint now fail s.files s.grid
  have hs := cleanup_supabase_fixpoint now rows
  refine ⟨?_, ?_, ?_, ?_⟩
  · simp [cleanup_expired_files, hm]
  · simp [cleanup_expired_files, hm]
  · simp [hs]
  · simp [hs]
